import Mathlib

/-!
Verification of the NOI analyzer core: field coercion and arithmetic
reconciliation (`gpt_data_extractor._validate_extraction_result`), period
normalization (`helpers.format_for_noi_comparison`) and comparison
calculation (`noi_calculations.calculate_noi_comparisons`), shallowly
embedded over exact rationals.
-/

namespace NOIAnalyzer

/-- Raw Python values as they occur in extraction results: a number
(int or float), a string that `float()` parses (carrying its value), a
string that `float()` rejects, or `None`. -/
inductive RawVal where
  | num (q : ℚ)
  | numStr (q : ℚ)
  | str (s : String)
  | pynone
deriving DecidableEq, Repr

/-- Python exceptions that the embedded fragments can raise. -/
inductive PyErr where
  | valueError
  | typeError
  | keyError
deriving DecidableEq, Repr

/-- Python `float(v)`: numbers and numeric strings convert; a
non-numeric string raises `ValueError`; `None` raises `TypeError`. -/
def pyFloat : RawVal → Except PyErr ℚ
  | .num q => .ok q
  | .numStr q => .ok q
  | .str _ => .error .valueError
  | .pynone => .error .typeError

/-- Python dicts with arbitrary raw values, as association lists. -/
abbrev RawDict := List (String × RawVal)

/-- Python `d.get(k, dflt)`. -/
def RawDict.get (d : RawDict) (k : String) (dflt : RawVal) : RawVal :=
  match d.lookup k with
  | some v => v
  | none => dflt

/-- FinancialRecord: the fixed numeric schema that
`_validate_extraction_result` coerces every extraction result into
(`gpt_data_extractor.py` lines 356-386).  The non-numeric
`document_type` bookkeeping of the source is outside this record. -/
structure FinRecord where
  rental_income : ℚ
  laundry_income : ℚ
  parking_income : ℚ
  other_revenue : ℚ
  application_fees : ℚ
  total_revenue : ℚ
  repairs_maintenance : ℚ
  utilities : ℚ
  property_management_fees : ℚ
  property_taxes : ℚ
  insurance : ℚ
  admin_office_costs : ℚ
  marketing_advertising : ℚ
  total_expenses : ℚ
  net_operating_income : ℚ
deriving DecidableEq, Repr

/-- Coercion of one field (`gpt_data_extractor.py` lines 376-386): a
missing field becomes 0, a present one goes through `float()` with the
failure branch substituting 0. -/
def coerceField (raw : RawDict) (field : String) : ℚ :=
  match raw.lookup field with
  | none => 0
  | some v =>
    match pyFloat v with
    | .ok q => q
    | .error _ => 0

/-- FieldCoercer: the field-filling and numeric-coercion phase of
`_validate_extraction_result`. -/
def coerce (raw : RawDict) : FinRecord :=
  { rental_income := coerceField raw "rental_income"
    laundry_income := coerceField raw "laundry_income"
    parking_income := coerceField raw "parking_income"
    other_revenue := coerceField raw "other_revenue"
    application_fees := coerceField raw "application_fees"
    total_revenue := coerceField raw "total_revenue"
    repairs_maintenance := coerceField raw "repairs_maintenance"
    utilities := coerceField raw "utilities"
    property_management_fees := coerceField raw "property_management_fees"
    property_taxes := coerceField raw "property_taxes"
    insurance := coerceField raw "insurance"
    admin_office_costs := coerceField raw "admin_office_costs"
    marketing_advertising := coerceField raw "marketing_advertising"
    total_expenses := coerceField raw "total_expenses"
    net_operating_income := coerceField raw "net_operating_income" }

/-- Itemized revenue sum (`gpt_data_extractor.py` lines 393-399, 412). -/
def revSum (r : FinRecord) : ℚ :=
  r.rental_income + r.laundry_income + r.parking_income + r.other_revenue +
    r.application_fees

/-- Itemized expense sum (`gpt_data_extractor.py` lines 401-409, 413). -/
def expSum (r : FinRecord) : ℚ :=
  r.repairs_maintenance + r.utilities + r.property_management_fees +
    r.property_taxes + r.insurance + r.admin_office_costs +
    r.marketing_advertising

/-- Python `abs` on an exact rational, written so that it evaluates by
kernel reduction. -/
def pyAbs (q : ℚ) : ℚ :=
  if q < 0 then -q else q

/-- Function `pyAbs` agrees with the mathematical absolute value. -/
theorem pyAbs_eq_abs (q : ℚ) : pyAbs q = |q| := by
  unfold pyAbs
  split
  · exact (abs_of_neg (by assumption)).symm
  · exact (abs_of_nonneg (by linarith [not_lt.mp (by assumption)])).symm

/-- Python `round` on an exact rational: round half to even. -/
def pyRound (q : ℚ) : ℤ :=
  if q - ⌊q⌋ < 1 / 2 then ⌊q⌋
  else if 1 / 2 < q - ⌊q⌋ then ⌊q⌋ + 1
  else if 2 ∣ ⌊q⌋ then ⌊q⌋ else ⌊q⌋ + 1

/-- Python float test `q % 10 == 0`: `q` is an exact integer multiple
of 10. -/
def isMultipleOf10 (q : ℚ) : Bool :=
  (q / 10).den == 1

/-- Scaling of the five itemized revenue fields by the unit-mismatch
multiplier (`gpt_data_extractor.py` lines 427-428). -/
def scaleRevenueItems (r : FinRecord) (m : ℚ) : FinRecord :=
  { r with
    rental_income := r.rental_income * m
    laundry_income := r.laundry_income * m
    parking_income := r.parking_income * m
    other_revenue := r.other_revenue * m
    application_fees := r.application_fees * m }

/-- Guard of the unit-mismatch heuristic (`gpt_data_extractor.py` line
420): positive itemized sum, ratio chained into [10, 10000], reported
total an exact multiple of 10. -/
def heurCond (r : FinRecord) : Prop :=
  0 < revSum r ∧ 10 ≤ r.total_revenue / revSum r ∧
    r.total_revenue / revSum r ≤ 10000 ∧ isMultipleOf10 r.total_revenue = true

instance (r : FinRecord) : Decidable (heurCond r) := by
  unfold heurCond
  infer_instance

/-- Revenue check of `_validate_extraction_result` (lines 417-445):
on a discrepancy beyond 1, either scale the itemized revenue fields by
the rounded ratio (unit mismatch), or replace a zero reported total by
the itemized sum, or keep everything. -/
def reconcileRevenue (r : FinRecord) : FinRecord :=
  if 1 < pyAbs (revSum r - r.total_revenue) then
    if heurCond r then
      scaleRevenueItems r ((pyRound (r.total_revenue / revSum r) : ℤ) : ℚ)
    else if r.total_revenue = 0 then
      { r with total_revenue := revSum r }
    else r
  else r

/-- Expense check of `_validate_extraction_result` (lines 447-451):
`calcExpenses` is the itemized expense sum computed before the revenue
step; on a discrepancy beyond 1 the reported total is overwritten. -/
def reconcileExpense (calcExpenses : ℚ) (r : FinRecord) : FinRecord :=
  if 1 < pyAbs (calcExpenses - r.total_expenses) then
    { r with total_expenses := calcExpenses }
  else r

/-- NOI check of `_validate_extraction_result` (lines 453-463): NOI is
recomputed from the (possibly corrected) totals and replaces a zero
reported NOI when the discrepancy exceeds 1. -/
def reconcileNOI (r : FinRecord) : FinRecord :=
  if 1 < pyAbs (r.total_revenue - r.total_expenses - r.net_operating_income) ∧
      r.net_operating_income = 0 then
    { r with net_operating_income := r.total_revenue - r.total_expenses }
  else r

/-- ConsistencyReconciler: the mathematical-consistency phase of
`_validate_extraction_result` (lines 392-463), with the itemized
expense sum computed from the input record as in the source. -/
def reconcile (r : FinRecord) : FinRecord :=
  reconcileNOI (reconcileExpense (expSum r) (reconcileRevenue r))

/-- Whole effect of `_validate_extraction_result` on the numeric
fields: coercion followed by reconciliation. -/
def validate_extraction_result (raw : RawDict) : FinRecord :=
  reconcile (coerce raw)

/-- Python expression `0.0 if v is None else float(v)` of
`helpers.py` lines 38-40: `None` becomes 0.0, everything else goes
through the unguarded `float()`, which can raise. -/
def zeroIfNoneElseFloat (v : RawVal) : Except PyErr ℚ :=
  if v = .pynone then .ok 0 else pyFloat v

/-- PeriodNormalizer, `helpers.format_for_noi_comparison` (lines
15-51): read the three totals with default 0, substitute 0.0 for
`None` but pass anything else through the unguarded `float()` (which
can raise), defensively recompute a zero NOI, and return the dict with
exactly the keys `revenue`, `expense`, `noi`. -/
def format_for_noi_comparison (financials : RawDict) :
    Except PyErr (List (String × ℚ)) :=
  (zeroIfNoneElseFloat (financials.get "total_revenue" (.num 0))).bind
    fun revenue =>
  (zeroIfNoneElseFloat (financials.get "total_expenses" (.num 0))).bind
    fun expenses =>
  (zeroIfNoneElseFloat (financials.get "net_operating_income" (.num 0))).bind
    fun noi0 =>
  let noi := if noi0 = 0 ∧ revenue ≠ 0 ∧ expenses ≠ 0 then revenue - expenses
    else noi0
  .ok [("revenue", revenue), ("expense", expenses), ("noi", noi)]

/-- A period slot dict as `calculate_noi_comparisons` reads it: string
keys mapped to numbers. -/
abbrev PeriodDict := List (String × ℚ)

/-- Python `d.get(k, 0)` on a numeric dict. -/
def dget (d : PeriodDict) (k : String) : ℚ :=
  (d.lookup k).getD 0

/-- Python truthiness of an optional dict: `None` and the empty dict
are falsy. -/
def truthy : Option PeriodDict → Bool
  | none => false
  | some d => !d.isEmpty

/-- Function `safe_percent_change` of `noi_calculations.py` (lines
45-51): `None` operands propagate to `None`; a zero baseline yields
+100 / -100 / 0 by the sign of `current`; otherwise the change is
relative to `abs(previous)`. -/
def safe_percent_change : Option ℚ → Option ℚ → Option ℚ
  | none, _ => none
  | _, none => none
  | some current, some previous =>
    if previous = 0 then
      if 0 < current then some 100 else if current < 0 then some (-100)
      else some 0
    else some ((current - previous) / pyAbs previous * 100)

/-- Entry built for `results["current"]` (`noi_calculations.py` lines
54-59); the empty dict when `current_month` is falsy. -/
def currentBlock : Option PeriodDict → List (String × Option ℚ)
  | some cm =>
    if cm.isEmpty then []
    else
      [("revenue", some (dget cm "total_revenue")),
       ("expense", some (dget cm "total_expenses")),
       ("noi", some (dget cm "net_operating_income"))]
  | none => []

/-- Entry built for `results["month_vs_prior"]` (`noi_calculations.py`
lines 62-93); the empty dict unless both operands are truthy. -/
def monthVsPriorBlock (cm pm : Option PeriodDict) : List (String × Option ℚ) :=
  match cm, pm with
  | some c, some p =>
    if c.isEmpty || p.isEmpty then []
    else
      [("revenue_current", some (dget c "total_revenue")),
       ("revenue_prior", some (dget p "total_revenue")),
       ("revenue_change", some (dget c "total_revenue" - dget p "total_revenue")),
       ("revenue_percent_change",
        safe_percent_change (some (dget c "total_revenue")) (some (dget p "total_revenue"))),
       ("expense_current", some (dget c "total_expenses")),
       ("expense_prior", some (dget p "total_expenses")),
       ("expense_change", some (dget c "total_expenses" - dget p "total_expenses")),
       ("expense_percent_change",
        safe_percent_change (some (dget c "total_expenses")) (some (dget p "total_expenses"))),
       ("noi_current", some (dget c "net_operating_income")),
       ("noi_prior", some (dget p "net_operating_income")),
       ("noi_change", some (dget c "net_operating_income" - dget p "net_operating_income")),
       ("noi_percent_change",
        safe_percent_change (some (dget c "net_operating_income")) (some (dget p "net_operating_income")))]
  | _, _ => []

/-- Entry built for `results["actual_vs_budget"]`
(`noi_calculations.py` lines 96-127). -/
def actualVsBudgetBlock (cm b : Option PeriodDict) : List (String × Option ℚ) :=
  match cm, b with
  | some c, some bu =>
    if c.isEmpty || bu.isEmpty then []
    else
      [("revenue_actual", some (dget c "total_revenue")),
       ("revenue_budget", some (dget bu "total_revenue")),
       ("revenue_variance", some (dget c "total_revenue" - dget bu "total_revenue")),
       ("revenue_percent_variance",
        safe_percent_change (some (dget c "total_revenue")) (some (dget bu "total_revenue"))),
       ("expense_actual", some (dget c "total_expenses")),
       ("expense_budget", some (dget bu "total_expenses")),
       ("expense_variance", some (dget c "total_expenses" - dget bu "total_expenses")),
       ("expense_percent_variance",
        safe_percent_change (some (dget c "total_expenses")) (some (dget bu "total_expenses"))),
       ("noi_actual", some (dget c "net_operating_income")),
       ("noi_budget", some (dget bu "net_operating_income")),
       ("noi_variance", some (dget c "net_operating_income" - dget bu "net_operating_income")),
       ("noi_percent_variance",
        safe_percent_change (some (dget c "net_operating_income")) (some (dget bu "net_operating_income")))]
  | _, _ => []

/-- Entry built for `results["year_vs_year"]` (`noi_calculations.py`
lines 130-161). -/
def yearVsYearBlock (cm py : Option PeriodDict) : List (String × Option ℚ) :=
  match cm, py with
  | some c, some p =>
    if c.isEmpty || p.isEmpty then []
    else
      [("revenue_current", some (dget c "total_revenue")),
       ("revenue_prior_year", some (dget p "total_revenue")),
       ("revenue_change", some (dget c "total_revenue" - dget p "total_revenue")),
       ("revenue_percent_change",
        safe_percent_change (some (dget c "total_revenue")) (some (dget p "total_revenue"))),
       ("expense_current", some (dget c "total_expenses")),
       ("expense_prior_year", some (dget p "total_expenses")),
       ("expense_change", some (dget c "total_expenses" - dget p "total_expenses")),
       ("expense_percent_change",
        safe_percent_change (some (dget c "total_expenses")) (some (dget p "total_expenses"))),
       ("noi_current", some (dget c "net_operating_income")),
       ("noi_prior_year", some (dget p "net_operating_income")),
       ("noi_change", some (dget c "net_operating_income" - dget p "net_operating_income")),
       ("noi_percent_change",
        safe_percent_change (some (dget c "net_operating_income")) (some (dget p "net_operating_income")))]
  | _, _ => []

/-- ComparisonEngine, `noi_calculations.calculate_noi_comparisons`
(lines 16-164): the result dict is initialized with all four context
keys (lines 37-42) and each comparison block is filled only when both
of its operand slots are truthy, remaining the empty dict otherwise. -/
def calculate_noi_comparisons
    (consolidated_data : List (String × Option PeriodDict)) :
    List (String × List (String × Option ℚ)) :=
  let current_month := (consolidated_data.lookup "current_month").join
  let prior_month := (consolidated_data.lookup "prior_month").join
  let budget := (consolidated_data.lookup "budget").join
  let prior_year := (consolidated_data.lookup "prior_year").join
  [("current", currentBlock current_month),
   ("month_vs_prior", monthVsPriorBlock current_month prior_month),
   ("actual_vs_budget", actualVsBudgetBlock current_month budget),
   ("year_vs_year", yearVsYearBlock current_month prior_year)]

/-- Metric lookup in a comparison result: the entry of context `ctx`,
then its field `metric`. -/
def resultMetric (res : List (String × List (String × Option ℚ)))
    (ctx metric : String) : Option (Option ℚ) :=
  match res.lookup ctx with
  | some entry => entry.lookup metric
  | none => none

/-! Concrete inputs used by the scenario claims. -/

/-- Raw extraction of spec scenario 1. -/
def scenario1Raw : RawDict :=
  [("total_revenue", .num 1290), ("rental_income", .num 120),
   ("laundry_income", .num 25), ("parking_income", .num 50),
   ("other_revenue", .num 15), ("total_expenses", .num 0),
   ("repairs_maintenance", .num 12), ("utilities", .num 15),
   ("net_operating_income", .num 0)]

/-- Slot map of spec scenario 2, holding the period summaries exactly
as `format_for_noi_comparison` produces them. -/
def scenario2Slots : List (String × Option PeriodDict) :=
  [("current_month", some [("revenue", 129000), ("expense", 51500), ("noi", 77500)]),
   ("prior_month", some [("revenue", 126300), ("expense", 52000), ("noi", 74300)]),
   ("budget", none), ("prior_year", none)]

/-- Slot map of spec scenario 3: a current month summary, every other
slot absent. -/
def scenario3Slots : List (String × Option PeriodDict) :=
  [("current_month",
    some [("total_revenue", 100000), ("total_expenses", 50000),
          ("net_operating_income", 50000)]),
   ("prior_month", none), ("budget", none), ("prior_year", none)]

/-! Claim theorems. -/

/-- Unfolding equation for `safe_percent_change` on two numbers. -/
theorem safe_percent_change_eq (c p : ℚ) :
    safe_percent_change (some c) (some p) =
      if p = 0 then
        if 0 < c then some 100 else if c < 0 then some (-100) else some 0
      else some ((c - p) / pyAbs p * 100) := rfl

/-- Sign of `d / a * 100` matches the sign of `d` for positive `a`. -/
theorem div_abs_mul_hundred_sign (d a : ℚ) (ha : 0 < a) :
    (0 < d / a * 100 ↔ 0 < d) ∧ (d / a * 100 < 0 ↔ d < 0) := by
  constructor
  · rw [div_mul_eq_mul_div, lt_div_iff₀ ha, zero_mul]
    constructor <;> intro h <;> linarith
  · rw [div_mul_eq_mul_div, div_lt_iff₀ ha, zero_mul]
    constructor <;> intro h <;> linarith

/-- C9: `safe_percent_change` returns `None` whenever its `current`
argument is `None`, for every value of `previous`. -/
theorem safe_percent_change_none_current (p : Option ℚ) :
    safe_percent_change none p = none := by
  cases p <;> rfl

/-- C4: for numeric-or-null operands, `safe_percent_change` returns
`None` on a null baseline, the signed saturation values +100 / -100 / 0
on a zero baseline, and otherwise `((current - previous) /
abs(previous)) * 100`, whose sign always matches the sign of the delta
`current - previous`. -/
theorem safe_percent_change_spec (c p : ℚ) :
    safe_percent_change (some c) none = none
    ∧ safe_percent_change (some c) (some 0) =
        some (if 0 < c then 100 else if c < 0 then -100 else 0)
    ∧ (p ≠ 0 → safe_percent_change (some c) (some p) =
        some ((c - p) / |p| * 100))
    ∧ (∀ q : ℚ, safe_percent_change (some c) (some p) = some q →
        ((0 < q ↔ 0 < c - p) ∧ (q < 0 ↔ c - p < 0))) := by
  refine ⟨rfl, ?_, fun hp => ?_, fun q hq => ?_⟩
  · rw [safe_percent_change_eq, if_pos rfl]
    split_ifs <;> rfl
  · rw [safe_percent_change_eq, if_neg hp, pyAbs_eq_abs]
  · by_cases hp : p = 0
    · subst hp
      rw [safe_percent_change_eq, if_pos rfl] at hq
      rcases lt_trichotomy 0 c with h | h | h
      · rw [if_pos h, Option.some.injEq] at hq
        subst hq
        constructor <;> constructor <;> intro h2 <;> linarith
      · rw [if_neg (by linarith), if_neg (by linarith), Option.some.injEq] at hq
        subst hq
        constructor <;> constructor <;> intro h2 <;> linarith
      · rw [if_neg (by linarith), if_pos h, Option.some.injEq] at hq
        subst hq
        constructor <;> constructor <;> intro h2 <;> linarith
    · rw [safe_percent_change_eq, if_neg hp, Option.some.injEq] at hq
      subst hq
      have hab : 0 < pyAbs p := by
        rw [pyAbs_eq_abs]
        exact abs_pos.mpr hp
      exact div_abs_mul_hundred_sign (c - p) (pyAbs p) hab

/-- Witness for C4 at `current = 5`, `previous = 2`. -/
theorem safe_percent_change_spec_witness :
    safe_percent_change (some 5) (some 2) = some ((5 - 2 : ℚ) / |2| * 100)
    ∧ ((0 < (150 : ℚ) ↔ 0 < (5 : ℚ) - 2) ∧ ((150 : ℚ) < 0 ↔ (5 : ℚ) - 2 < 0)) :=
  ⟨(safe_percent_change_spec 5 2).2.2.1 (by norm_num),
   (safe_percent_change_spec 5 2).2.2.2 150
     (by rw [safe_percent_change_eq, if_neg (by norm_num)]; norm_num [pyAbs])⟩

/-- C2 (code bug): `format_for_noi_comparison` raises `ValueError` on
a malformed (non-numeric string) `total_revenue`, because the source
checks only for `None` before calling `float()`. -/
theorem format_for_noi_comparison_raises_on_malformed :
    format_for_noi_comparison [("total_revenue", .str "n/a")] =
      .error .valueError := by
  rfl

/-- Current-month summary dict of scenario 2, keyed as
`format_for_noi_comparison` produces it. -/
def scenario2Current : PeriodDict :=
  [("revenue", 129000), ("expense", 51500), ("noi", 77500)]

/-- Prior-month summary dict of scenario 2. -/
def scenario2Prior : PeriodDict :=
  [("revenue", 126300), ("expense", 52000), ("noi", 74300)]

/-- C7 (code bug): on the scenario-2 slot map, as produced by
`format_for_noi_comparison` with keys `revenue`, `expense`, `noi`, the
comparison reads the absent keys `total_revenue`, `total_expenses`,
`net_operating_income` with default 0, so `month_vs_prior.noi_change`
is 0, not the claimed 3200. -/
theorem scenario2_noi_change_is_zero :
    resultMetric (calculate_noi_comparisons scenario2Slots)
      "month_vs_prior" "noi_change" = some (some 0) := by
  have h1 : resultMetric (calculate_noi_comparisons scenario2Slots)
      "month_vs_prior" "noi_change" =
      (monthVsPriorBlock (some scenario2Current) (some scenario2Prior)).lookup
        "noi_change" := rfl
  have h2 : (monthVsPriorBlock (some scenario2Current)
      (some scenario2Prior)).lookup "noi_change" =
      some (some (dget scenario2Current "net_operating_income" -
        dget scenario2Prior "net_operating_income")) := rfl
  have h3 : dget scenario2Current "net_operating_income" = 0 := rfl
  have h4 : dget scenario2Prior "net_operating_income" = 0 := rfl
  rw [h1, h2, h3, h4]
  norm_num

/-- Coercion of the scenario-1 raw extraction: the missing
`application_fees` and expense items become 0. -/
theorem coerce_scenario1 :
    coerce scenario1Raw =
      { rental_income := 120, laundry_income := 25, parking_income := 50,
        other_revenue := 15, application_fees := 0, total_revenue := 1290,
        repairs_maintenance := 12, utilities := 15,
        property_management_fees := 0, property_taxes := 0, insurance := 0,
        admin_office_costs := 0, marketing_advertising := 0,
        total_expenses := 0, net_operating_income := 0 } := rfl

/-- C3 counterexample: reconciling the scenario-1 extraction leaves
`rental_income` at 120; the claimed unit-mismatch multiplication by 10
(which would give 1200) does not happen, because the itemized revenue
sum is 210 and the ratio 1290 / 210 lies below 10. -/
theorem scenario1_rental_income_not_scaled :
    (validate_extraction_result scenario1Raw).rental_income = 120
    ∧ (validate_extraction_result scenario1Raw).rental_income ≠ 10 * 120 := by
  have h : validate_extraction_result scenario1Raw =
      { rental_income := 120, laundry_income := 25, parking_income := 50,
        other_revenue := 15, application_fees := 0, total_revenue := 1290,
        repairs_maintenance := 12, utilities := 15,
        property_management_fees := 0, property_taxes := 0, insurance := 0,
        admin_office_costs := 0, marketing_advertising := 0,
        total_expenses := 27, net_operating_income := 1263 } := by
    unfold validate_extraction_result
    rw [coerce_scenario1]
    norm_num [reconcile, reconcileRevenue, reconcileExpense, reconcileNOI,
      revSum, expSum, heurCond, pyAbs]
  rw [h]
  norm_num

/-- C3 amended: the scenario-1 reconciliation does not trigger the
unit-mismatch correction; the nonzero reported `total_revenue` 1290 is
kept with the revenue items unchanged, the itemized expense sum 27
overwrites the zero reported `total_expenses`, and the zero reported
NOI is replaced by 1290 - 27 = 1263. -/
theorem scenario1_reconciliation :
    validate_extraction_result scenario1Raw =
      { rental_income := 120, laundry_income := 25, parking_income := 50,
        other_revenue := 15, application_fees := 0, total_revenue := 1290,
        repairs_maintenance := 12, utilities := 15,
        property_management_fees := 0, property_taxes := 0, insurance := 0,
        admin_office_costs := 0, marketing_advertising := 0,
        total_expenses := 27, net_operating_income := 1263 } := by
  unfold validate_extraction_result
  rw [coerce_scenario1]
  norm_num [reconcile, reconcileRevenue, reconcileExpense, reconcileNOI,
    revSum, expSum, heurCond, pyAbs]

/-- Month-vs-prior entry is non-empty exactly when both operand slots
are truthy. -/
theorem monthVsPriorBlock_ne_nil (cm pm : Option PeriodDict) :
    monthVsPriorBlock cm pm ≠ [] ↔ truthy cm = true ∧ truthy pm = true := by
  cases cm with
  | none => simp [monthVsPriorBlock, truthy]
  | some c =>
    cases pm with
    | none => simp [monthVsPriorBlock, truthy]
    | some p =>
      cases hc : c.isEmpty <;> cases hp : p.isEmpty <;>
        simp [monthVsPriorBlock, truthy, hc, hp]

/-- Actual-vs-budget entry is non-empty exactly when both operand
slots are truthy. -/
theorem actualVsBudgetBlock_ne_nil (cm b : Option PeriodDict) :
    actualVsBudgetBlock cm b ≠ [] ↔ truthy cm = true ∧ truthy b = true := by
  cases cm with
  | none => simp [actualVsBudgetBlock, truthy]
  | some c =>
    cases b with
    | none => simp [actualVsBudgetBlock, truthy]
    | some p =>
      cases hc : c.isEmpty <;> cases hp : p.isEmpty <;>
        simp [actualVsBudgetBlock, truthy, hc, hp]

/-- Year-vs-year entry is non-empty exactly when both operand slots
are truthy. -/
theorem yearVsYearBlock_ne_nil (cm py : Option PeriodDict) :
    yearVsYearBlock cm py ≠ [] ↔ truthy cm = true ∧ truthy py = true := by
  cases cm with
  | none => simp [yearVsYearBlock, truthy]
  | some c =>
    cases py with
    | none => simp [yearVsYearBlock, truthy]
    | some p =>
      cases hc : c.isEmpty <;> cases hp : p.isEmpty <;>
        simp [yearVsYearBlock, truthy, hc, hp]

/-- C1 counterexample: in scenario 3 the `budget` slot is null, yet
the key `actual_vs_budget` is present in the returned dict — bound to
the empty dict — so the claimed key omission does not happen. -/
theorem scenario3_budget_key_present :
    (scenario3Slots.lookup "budget").join = none
    ∧ ((calculate_noi_comparisons scenario3Slots).lookup
        "actual_vs_budget").isSome = true
    ∧ (calculate_noi_comparisons scenario3Slots).lookup "actual_vs_budget" =
        some [] :=
  ⟨rfl, rfl, rfl⟩

/-- C1 amended: all four context keys are always present in the
result of `calculate_noi_comparisons`; a comparison context's entry is
a non-empty dict exactly when both the current slot and that context's
comparison slot are truthy, and it is the empty dict — not a
zero-filled one — otherwise. -/
theorem calculate_noi_comparisons_context_presence
    (slots : List (String × Option PeriodDict)) :
    (calculate_noi_comparisons slots).map Prod.fst =
      ["current", "month_vs_prior", "actual_vs_budget", "year_vs_year"]
    ∧ (calculate_noi_comparisons slots).lookup "month_vs_prior" =
        some (monthVsPriorBlock ((slots.lookup "current_month").join)
          ((slots.lookup "prior_month").join))
    ∧ (calculate_noi_comparisons slots).lookup "actual_vs_budget" =
        some (actualVsBudgetBlock ((slots.lookup "current_month").join)
          ((slots.lookup "budget").join))
    ∧ (calculate_noi_comparisons slots).lookup "year_vs_year" =
        some (yearVsYearBlock ((slots.lookup "current_month").join)
          ((slots.lookup "prior_year").join))
    ∧ (monthVsPriorBlock ((slots.lookup "current_month").join)
          ((slots.lookup "prior_month").join) ≠ [] ↔
        truthy ((slots.lookup "current_month").join) = true ∧
          truthy ((slots.lookup "prior_month").join) = true)
    ∧ (actualVsBudgetBlock ((slots.lookup "current_month").join)
          ((slots.lookup "budget").join) ≠ [] ↔
        truthy ((slots.lookup "current_month").join) = true ∧
          truthy ((slots.lookup "budget").join) = true)
    ∧ (yearVsYearBlock ((slots.lookup "current_month").join)
          ((slots.lookup "prior_year").join) ≠ [] ↔
        truthy ((slots.lookup "current_month").join) = true ∧
          truthy ((slots.lookup "prior_year").join) = true) :=
  ⟨rfl, rfl, rfl, rfl, monthVsPriorBlock_ne_nil _ _,
   actualVsBudgetBlock_ne_nil _ _, yearVsYearBlock_ne_nil _ _⟩

/-- Raw values in the domain of claim C10: a number or Python `None`
(absence is handled separately). -/
def numericOrNone : RawVal → Prop
  | .num _ => True
  | .pynone => True
  | _ => False

/-- Key `k` of dict `f` is absent, a number, or `None`. -/
def benignAt (f : RawDict) (k : String) : Prop :=
  match f.lookup k with
  | some v => numericOrNone v
  | none => True

/-- Value that `format_for_noi_comparison` substitutes for key `k`:
the number stored there, or 0 for `None` or an absent key. -/
def substValue (f : RawDict) (k : String) : ℚ :=
  match f.lookup k with
  | some (.num q) => q
  | _ => 0

/-- On a benign key, the `None`-check-then-`float()` coercion of
`helpers.py` returns the substituted value and cannot raise. -/
theorem zeroIfNoneElseFloat_benign (f : RawDict) (k : String)
    (h : benignAt f k) :
    zeroIfNoneElseFloat (RawDict.get f k (.num 0)) =
      Except.ok (substValue f k) := by
  unfold benignAt at h
  unfold RawDict.get substValue zeroIfNoneElseFloat
  cases hf : f.lookup k with
  | none => simp [pyFloat]
  | some v =>
    rw [hf] at h
    cases v <;> simp_all [numericOrNone, pyFloat]

/-- C10: on any input whose `total_revenue`, `total_expenses` and
`net_operating_income` values are each a number, `None` or absent,
`format_for_noi_comparison` substitutes 0.0 for `None` and absent
values before the defensive NOI recomputation and returns — without
raising — a dict with exactly the keys `revenue`, `expense`, `noi`,
each holding a number. -/
theorem format_for_noi_comparison_benign (f : RawDict)
    (hr : benignAt f "total_revenue") (he : benignAt f "total_expenses")
    (hn : benignAt f "net_operating_income") :
    format_for_noi_comparison f =
      .ok [("revenue", substValue f "total_revenue"),
           ("expense", substValue f "total_expenses"),
           ("noi",
            if substValue f "net_operating_income" = 0 ∧
                substValue f "total_revenue" ≠ 0 ∧
                substValue f "total_expenses" ≠ 0 then
              substValue f "total_revenue" - substValue f "total_expenses"
            else substValue f "net_operating_income")] := by
  unfold format_for_noi_comparison
  rw [zeroIfNoneElseFloat_benign f "total_revenue" hr,
    zeroIfNoneElseFloat_benign f "total_expenses" he,
    zeroIfNoneElseFloat_benign f "net_operating_income" hn]
  rfl

/-- Witness for C10: a dict with a numeric `total_revenue`, a `None`
NOI and an absent `total_expenses`. -/
theorem format_for_noi_comparison_benign_witness :
    format_for_noi_comparison
      [("total_revenue", .num 500), ("net_operating_income", .pynone)] =
      .ok [("revenue", 500), ("expense", 0), ("noi", 0)] := by
  refine (format_for_noi_comparison_benign
    [("total_revenue", .num 500), ("net_operating_income", .pynone)]
    trivial trivial trivial).trans ?_
  have s1 : substValue
      [("total_revenue", .num 500), ("net_operating_income", .pynone)]
      "total_revenue" = 500 := rfl
  have s2 : substValue
      [("total_revenue", .num 500), ("net_operating_income", .pynone)]
      "total_expenses" = 0 := rfl
  have s3 : substValue
      [("total_revenue", .num 500), ("net_operating_income", .pynone)]
      "net_operating_income" = 0 := rfl
  rw [s1, s2, s3]
  norm_num

/-! Preservation lemmas for the three reconciliation steps. -/

theorem expSum_scaleRevenueItems (r : FinRecord) (m : ℚ) :
    expSum (scaleRevenueItems r m) = expSum r := rfl

theorem revSum_scaleRevenueItems (r : FinRecord) (m : ℚ) :
    revSum (scaleRevenueItems r m) = revSum r * m := by
  unfold revSum scaleRevenueItems
  ring

theorem total_revenue_scaleRevenueItems (r : FinRecord) (m : ℚ) :
    (scaleRevenueItems r m).total_revenue = r.total_revenue := rfl

theorem expSum_reconcileRevenue (r : FinRecord) :
    expSum (reconcileRevenue r) = expSum r := by
  unfold reconcileRevenue
  split_ifs <;> rfl

theorem total_expenses_reconcileRevenue (r : FinRecord) :
    (reconcileRevenue r).total_expenses = r.total_expenses := by
  unfold reconcileRevenue
  split_ifs <;> rfl

theorem noi_reconcileRevenue (r : FinRecord) :
    (reconcileRevenue r).net_operating_income = r.net_operating_income := by
  unfold reconcileRevenue
  split_ifs <;> rfl

theorem expSum_reconcileExpense (ce : ℚ) (r : FinRecord) :
    expSum (reconcileExpense ce r) = expSum r := by
  unfold reconcileExpense
  split_ifs <;> rfl

theorem revSum_reconcileExpense (ce : ℚ) (r : FinRecord) :
    revSum (reconcileExpense ce r) = revSum r := by
  unfold reconcileExpense
  split_ifs <;> rfl

theorem total_revenue_reconcileExpense (ce : ℚ) (r : FinRecord) :
    (reconcileExpense ce r).total_revenue = r.total_revenue := by
  unfold reconcileExpense
  split_ifs <;> rfl

theorem noi_reconcileExpense (ce : ℚ) (r : FinRecord) :
    (reconcileExpense ce r).net_operating_income = r.net_operating_income := by
  unfold reconcileExpense
  split_ifs <;> rfl

theorem total_expenses_reconcileExpense (ce : ℚ) (r : FinRecord) :
    (reconcileExpense ce r).total_expenses =
      if 1 < pyAbs (ce - r.total_expenses) then ce else r.total_expenses := by
  unfold reconcileExpense
  split_ifs <;> rfl

theorem expSum_reconcileNOI (r : FinRecord) :
    expSum (reconcileNOI r) = expSum r := by
  unfold reconcileNOI
  split_ifs <;> rfl

theorem revSum_reconcileNOI (r : FinRecord) :
    revSum (reconcileNOI r) = revSum r := by
  unfold reconcileNOI
  split_ifs <;> rfl

theorem total_revenue_reconcileNOI (r : FinRecord) :
    (reconcileNOI r).total_revenue = r.total_revenue := by
  unfold reconcileNOI
  split_ifs <;> rfl

theorem total_expenses_reconcileNOI (r : FinRecord) :
    (reconcileNOI r).total_expenses = r.total_expenses := by
  unfold reconcileNOI
  split_ifs <;> rfl

/-- Shape of the reconciled `total_expenses`: the expense sum of the
input when it differs from the reported total by more than 1, the
reported total otherwise. -/
theorem total_expenses_reconcile (r : FinRecord) :
    (reconcile r).total_expenses =
      if 1 < pyAbs (expSum r - r.total_expenses) then expSum r
      else r.total_expenses := by
  unfold reconcile
  rw [total_expenses_reconcileNOI, total_expenses_reconcileExpense,
    total_expenses_reconcileRevenue]

/-- C5: after reconciliation the reported `total_expenses` agrees
with the sum of the seven itemized expense fields within the 1-unit
tolerance, and whenever the itemized sum and the reported total differ
by more than 1 the reported total is overwritten with the itemized
sum (the expense items themselves are never rescaled). -/
theorem reconcile_expense_authority (r : FinRecord) :
    |(reconcile r).total_expenses - expSum (reconcile r)| ≤ 1
    ∧ (1 < |expSum r - r.total_expenses| →
        (reconcile r).total_expenses = expSum (reconcile r)) := by
  have hsum : expSum (reconcile r) = expSum r := by
    unfold reconcile
    rw [expSum_reconcileNOI, expSum_reconcileExpense, expSum_reconcileRevenue]
  rw [hsum, total_expenses_reconcile, ← pyAbs_eq_abs, ← pyAbs_eq_abs]
  constructor
  · split_ifs with h
    · simp [pyAbs]
    · unfold pyAbs at h ⊢
      split_ifs at h ⊢ <;> linarith
  · intro h
    rw [if_pos h]

/-- Record used by the C5 witness: reported `total_expenses` 0
disagrees with the itemized expense sum 27. -/
def expenseMismatchRecord : FinRecord :=
  { rental_income := 120, laundry_income := 25, parking_income := 50,
    other_revenue := 15, application_fees := 0, total_revenue := 210,
    repairs_maintenance := 12, utilities := 15,
    property_management_fees := 0, property_taxes := 0, insurance := 0,
    admin_office_costs := 0, marketing_advertising := 0,
    total_expenses := 0, net_operating_income := 183 }

/-- Witness for C5 at `expenseMismatchRecord`. -/
theorem reconcile_expense_authority_witness :
    |(reconcile expenseMismatchRecord).total_expenses -
      expSum (reconcile expenseMismatchRecord)| ≤ 1
    ∧ (reconcile expenseMismatchRecord).total_expenses =
      expSum (reconcile expenseMismatchRecord) :=
  ⟨(reconcile_expense_authority _).1,
   (reconcile_expense_authority _).2
     (by norm_num [expSum, expenseMismatchRecord])⟩

/-- Reported nonzero `total_revenue` survives the revenue check: the
unit-mismatch branch rescales only the itemized fields, and the
replacement branch requires a zero reported total. -/
theorem total_revenue_reconcileRevenue_ne (r : FinRecord)
    (h : r.total_revenue ≠ 0) :
    (reconcileRevenue r).total_revenue = r.total_revenue := by
  unfold reconcileRevenue
  by_cases h1 : 1 < pyAbs (revSum r - r.total_revenue)
  · rw [if_pos h1]
    by_cases h2 : heurCond r
    · rw [if_pos h2, total_revenue_scaleRevenueItems]
    · rw [if_neg h2, if_neg h]
  · rw [if_neg h1]

/-- Reported nonzero NOI survives the NOI check, which replaces only
a zero reported NOI. -/
theorem noi_reconcileNOI_ne (r : FinRecord)
    (h : r.net_operating_income ≠ 0) :
    (reconcileNOI r).net_operating_income = r.net_operating_income := by
  unfold reconcileNOI
  split_ifs with h1
  · exact absurd h1.2 h
  · rfl

/-- C8: reconciliation never changes a nonzero reported
`total_revenue` (the unit-mismatch correction scales only the itemized
revenue fields) and never changes a nonzero reported
`net_operating_income`. -/
theorem reconcile_preserves_nonzero_reported (r : FinRecord) :
    (r.total_revenue ≠ 0 → (reconcile r).total_revenue = r.total_revenue)
    ∧ (r.net_operating_income ≠ 0 →
        (reconcile r).net_operating_income = r.net_operating_income) := by
  constructor
  · intro h
    unfold reconcile
    rw [total_revenue_reconcileNOI, total_revenue_reconcileExpense,
      total_revenue_reconcileRevenue_ne r h]
  · intro h
    unfold reconcile
    rw [noi_reconcileNOI_ne, noi_reconcileExpense, noi_reconcileRevenue]
    rw [noi_reconcileExpense, noi_reconcileRevenue]
    exact h

/-- Record used by the C8 witness: nonzero reported total revenue
1290 and nonzero reported NOI 183. -/
def nonzeroReportedRecord : FinRecord :=
  { rental_income := 120, laundry_income := 25, parking_income := 50,
    other_revenue := 15, application_fees := 0, total_revenue := 1290,
    repairs_maintenance := 12, utilities := 15,
    property_management_fees := 0, property_taxes := 0, insurance := 0,
    admin_office_costs := 0, marketing_advertising := 0,
    total_expenses := 27, net_operating_income := 183 }

/-- Witness for C8 at `nonzeroReportedRecord`. -/
theorem reconcile_preserves_nonzero_reported_witness :
    (reconcile nonzeroReportedRecord).total_revenue = 1290
    ∧ (reconcile nonzeroReportedRecord).net_operating_income = 183 := by
  have h1 := (reconcile_preserves_nonzero_reported nonzeroReportedRecord).1
    (by norm_num [nonzeroReportedRecord])
  have h2 := (reconcile_preserves_nonzero_reported nonzeroReportedRecord).2
    (by norm_num [nonzeroReportedRecord])
  rw [h1, h2]
  exact ⟨rfl, rfl⟩

/-! Idempotence of the reconciler. -/

/-- Round-half-to-even stays within a half unit of its argument. -/
theorem pyRound_bounds (q : ℚ) :
    q - 1 / 2 ≤ (pyRound q : ℚ) ∧ (pyRound q : ℚ) ≤ q + 1 / 2 := by
  have h0 : (⌊q⌋ : ℚ) ≤ q := Int.floor_le q
  have h1 : q < ⌊q⌋ + 1 := Int.lt_floor_add_one q
  unfold pyRound
  split_ifs with ha hb hc
  · constructor <;> linarith
  · push_cast
    constructor <;> linarith
  · have hq : q - ⌊q⌋ = 1 / 2 := le_antisymm (not_lt.mp hb) (not_lt.mp ha)
    constructor <;> linarith
  · have hq : q - ⌊q⌋ = 1 / 2 := le_antisymm (not_lt.mp hb) (not_lt.mp ha)
    push_cast
    constructor <;> linarith

/-- Rounding a ratio of at least 10 yields a multiplier of at least
10. -/
theorem pyRound_ge_ten (q : ℚ) (h : 10 ≤ q) : 10 ≤ pyRound q := by
  by_contra hc
  push_neg at hc
  have h9 : pyRound q ≤ 9 := by omega
  have h9Q : (pyRound q : ℚ) ≤ 9 := by exact_mod_cast h9
  linarith [(pyRound_bounds q).1]

/-- Heuristic guard depends only on the itemized revenue sum and the
reported total. -/
theorem heurCond_congr (s t : FinRecord) (h1 : revSum s = revSum t)
    (h2 : s.total_revenue = t.total_revenue) : heurCond s ↔ heurCond t := by
  unfold heurCond
  rw [h1, h2]

/-- Revenue check leaves a record unchanged when, on a discrepancy,
neither the heuristic nor the zero-total replacement applies. -/
theorem reconcileRevenue_eq_self (s : FinRecord)
    (h : 1 < pyAbs (revSum s - s.total_revenue) →
      ¬ heurCond s ∧ s.total_revenue ≠ 0) :
    reconcileRevenue s = s := by
  unfold reconcileRevenue
  by_cases h1 : 1 < pyAbs (revSum s - s.total_revenue)
  · rw [if_pos h1, if_neg (h h1).1, if_neg (h h1).2]
  · rw [if_neg h1]

/-- Expense check leaves a record unchanged when the discrepancy is
within tolerance. -/
theorem reconcileExpense_eq_keep (ce : ℚ) (s : FinRecord)
    (h : ¬ 1 < pyAbs (ce - s.total_expenses)) :
    reconcileExpense ce s = s := by
  unfold reconcileExpense
  rw [if_neg h]

/-- NOI check applied twice is the NOI check applied once. -/
theorem reconcileNOI_idem (s : FinRecord) :
    reconcileNOI (reconcileNOI s) = reconcileNOI s := by
  by_cases h : 1 < pyAbs (s.total_revenue - s.total_expenses -
      s.net_operating_income) ∧ s.net_operating_income = 0
  · have he : reconcileNOI s =
        { s with net_operating_income :=
            s.total_revenue - s.total_expenses } := by
      unfold reconcileNOI
      rw [if_pos h]
    rw [he]
    unfold reconcileNOI
    rw [if_neg]
    rintro ⟨hh, -⟩
    simp only [sub_self] at hh
    norm_num [pyAbs] at hh
  · have he : reconcileNOI s = s := by
      unfold reconcileNOI
      rw [if_neg h]
    rw [he, he]

/-- After the revenue check has run once, its guard either no longer
fires or hits the keep branch: a second run cannot change the record.
In the scaled case the new ratio is at most about 1.05 and falls below
the heuristic's lower bound 10. -/
theorem reconcileRevenue_no_refire (r : FinRecord) :
    1 < pyAbs (revSum (reconcileRevenue r) -
        (reconcileRevenue r).total_revenue) →
      ¬ heurCond (reconcileRevenue r) ∧
        (reconcileRevenue r).total_revenue ≠ 0 := by
  intro hfire
  by_cases h1 : 1 < pyAbs (revSum r - r.total_revenue)
  case neg =>
    have he : reconcileRevenue r = r := by
      unfold reconcileRevenue
      rw [if_neg h1]
    rw [he] at hfire
    exact absurd hfire h1
  by_cases h2 : heurCond r
  · have he : reconcileRevenue r =
        scaleRevenueItems r ((pyRound (r.total_revenue / revSum r) : ℤ) : ℚ) := by
      unfold reconcileRevenue
      rw [if_pos h1, if_pos h2]
    obtain ⟨hpos, h10, h10k, hm10⟩ := h2
    have hb := pyRound_bounds (r.total_revenue / revSum r)
    have hmge : 10 ≤ pyRound (r.total_revenue / revSum r) := pyRound_ge_ten _ h10
    have hmQ : (10 : ℚ) ≤ ((pyRound (r.total_revenue / revSum r) : ℤ) : ℚ) := by
      exact_mod_cast hmge
    have htotpos : 0 < r.total_revenue := by
      have h' := (le_div_iff₀ hpos).mp h10
      linarith
    rw [he]
    constructor
    · rintro ⟨hpos', h10', -, -⟩
      rw [revSum_scaleRevenueItems] at hpos' h10'
      rw [total_revenue_scaleRevenueItems] at h10'
      have hlow : 10 * (revSum r * ((pyRound (r.total_revenue / revSum r) : ℤ) : ℚ)) ≤
          r.total_revenue := (le_div_iff₀ hpos').mp h10'
      have hub : r.total_revenue ≤
          (((pyRound (r.total_revenue / revSum r) : ℤ) : ℚ) + 1 / 2) * revSum r := by
        have hr2 : r.total_revenue / revSum r ≤
            ((pyRound (r.total_revenue / revSum r) : ℤ) : ℚ) + 1 / 2 := by
          linarith [hb.1]
        exact (div_le_iff₀ hpos).mp hr2
      nlinarith [mul_pos hpos (show (0 : ℚ) <
        9 * ((pyRound (r.total_revenue / revSum r) : ℤ) : ℚ) - 1 / 2 by linarith)]
    · rw [total_revenue_scaleRevenueItems]
      exact ne_of_gt htotpos
  · by_cases h3 : r.total_revenue = 0
    · have he : reconcileRevenue r = { r with total_revenue := revSum r } := by
        unfold reconcileRevenue
        rw [if_pos h1, if_neg h2, if_pos h3]
      rw [he] at hfire
      have hs : revSum { r with total_revenue := revSum r } = revSum r := rfl
      have ht : ({ r with total_revenue := revSum r } : FinRecord).total_revenue =
          revSum r := rfl
      rw [hs, ht, sub_self] at hfire
      norm_num [pyAbs] at hfire
    · have he : reconcileRevenue r = r := by
        unfold reconcileRevenue
        rw [if_pos h1, if_neg h2, if_neg h3]
      rw [he]
      exact ⟨h2, h3⟩

/-- C6: reconciliation is idempotent, and a record already satisfying
the three tolerance invariants is a fixed point of `reconcile`. -/
theorem reconcile_idempotent (r : FinRecord) :
    reconcile (reconcile r) = reconcile r
    ∧ (|revSum r - r.total_revenue| ≤ 1 ∧
        |expSum r - r.total_expenses| ≤ 1 ∧
        |r.total_revenue - r.total_expenses - r.net_operating_income| ≤ 1 →
        reconcile r = r) := by
  constructor
  · have hrev3 : revSum (reconcile r) = revSum (reconcileRevenue r) := by
      unfold reconcile
      rw [revSum_reconcileNOI, revSum_reconcileExpense]
    have htot3 : (reconcile r).total_revenue =
        (reconcileRevenue r).total_revenue := by
      unfold reconcile
      rw [total_revenue_reconcileNOI, total_revenue_reconcileExpense]
    have hexp3 : expSum (reconcile r) = expSum r := by
      unfold reconcile
      rw [expSum_reconcileNOI, expSum_reconcileExpense, expSum_reconcileRevenue]
    have hA : reconcileRevenue (reconcile r) = reconcile r := by
      apply reconcileRevenue_eq_self
      intro hfire
      rw [hrev3, htot3] at hfire
      obtain ⟨hnh, hnz⟩ := reconcileRevenue_no_refire r hfire
      constructor
      · rw [heurCond_congr (reconcile r) (reconcileRevenue r) hrev3 htot3]
        exact hnh
      · rw [htot3]
        exact hnz
    have hB : reconcileExpense (expSum (reconcile r)) (reconcile r) =
        reconcile r := by
      apply reconcileExpense_eq_keep
      rw [hexp3, total_expenses_reconcile]
      by_cases hf : 1 < pyAbs (expSum r - r.total_expenses)
      · rw [if_pos hf, sub_self]
        norm_num [pyAbs]
      · rw [if_neg hf]
        exact hf
    show reconcileNOI (reconcileExpense (expSum (reconcile r))
        (reconcileRevenue (reconcile r))) = reconcile r
    rw [hA, hB]
    show reconcileNOI (reconcileNOI
        (reconcileExpense (expSum r) (reconcileRevenue r))) = reconcile r
    rw [reconcileNOI_idem]
    rfl
  · rintro ⟨h1, h2, h3⟩
    rw [← pyAbs_eq_abs] at h1 h2 h3
    have e1 : reconcileRevenue r = r := by
      unfold reconcileRevenue
      rw [if_neg (not_lt.mpr h1)]
    have e2 : reconcileExpense (expSum r) r = r :=
      reconcileExpense_eq_keep _ _ (not_lt.mpr h2)
    have e3 : reconcileNOI r = r := by
      unfold reconcileNOI
      rw [if_neg]
      rintro ⟨hh, -⟩
      exact absurd hh (not_lt.mpr h3)
    show reconcileNOI (reconcileExpense (expSum r) (reconcileRevenue r)) = r
    rw [e1, e2, e3]

/-- Record used by the C6 witness: all three tolerance invariants
hold exactly. -/
def consistentRecord : FinRecord :=
  { rental_income := 120, laundry_income := 25, parking_income := 50,
    other_revenue := 15, application_fees := 0, total_revenue := 210,
    repairs_maintenance := 12, utilities := 15,
    property_management_fees := 0, property_taxes := 0, insurance := 0,
    admin_office_costs := 0, marketing_advertising := 0,
    total_expenses := 27, net_operating_income := 183 }

/-- Witness for C6 at `consistentRecord`. -/
theorem reconcile_idempotent_witness :
    reconcile (reconcile consistentRecord) = reconcile consistentRecord
    ∧ reconcile consistentRecord = consistentRecord :=
  ⟨(reconcile_idempotent consistentRecord).1,
   (reconcile_idempotent consistentRecord).2
     (by norm_num [revSum, expSum, consistentRecord])⟩

end NOIAnalyzer
